import Mathlib

/-!
Shallow embedding of `src/apply_hanning_window.py` (function `apply_hann_window_lon`).

Modelling conventions:
* An xarray `DataArray` over dims `(time, lat, lon)` is a record holding the dimension
  names, the three coordinate vectors (exact rationals standing for the float
  coordinate values), the cell values as a total function into `ℝ`, and the string
  attributes.
* `numpy` vector operations are modelled over `List ℚ` (coordinates) and `ℕ → ℝ`
  (the mask); machine floats are modelled as exact `ℚ`/`ℝ` arithmetic.
* The fallible parts of the Python code (indexing `da.lon[1]` on a too-short axis,
  `np.arange` with a zero step, and the slice assignment
  `hann_filter[i0 : iN + 1] = hann_window`, which raises a `ValueError` when the
  right-hand side does not broadcast to the slice length) are modelled with
  `Except String`.
-/

/-- Labeled 3-dimensional array in the style of an xarray DataArray with dims
`(time, lat, lon)`: dimension names, per-axis coordinate vectors, cell values
(a total function on indices), and string attributes. -/
structure DataArray where
  name : String
  dims : List String
  time_coord : List ℚ
  lat_coord : List ℚ
  lon : List ℚ
  data : ℕ → ℕ → ℕ → ℝ
  attrs : List (String × String)

/-- The shape of a DataArray: the sizes of the time, lat and lon axes. -/
def DataArray.shape (da : DataArray) : ℕ × ℕ × ℕ :=
  (da.time_coord.length, da.lat_coord.length, da.lon.length)

/-- Models `numpy.arange start stop step` over exact rationals for a positive step:
the values `start + k * step` for `k = 0, ..., ⌈(stop - start) / step⌉ - 1`
(an empty list for a non-positive step, which the source never hits because the
zero-resolution case is rejected before `arange` is reached). -/
def arange (start stop step : ℚ) : List ℚ :=
  if 0 < step then
    (List.range (Int.ceil ((stop - start) / step)).toNat).map
      (fun (k : ℕ) => start + (k : ℚ) * step)
  else []

/-- Models `numpy.searchsorted a v` (side `left`) on an ascending coordinate vector:
the insertion index of `v`, i.e. the number of leading entries strictly below `v`.
On sorted input this is exactly what numpy's binary search returns. -/
def searchsorted (a : List ℚ) (v : ℚ) : ℕ :=
  (a.takeWhile (fun x => x < v)).length

/-- Lines 18-30 of the source: window extents `center_lon ± int(window_size/2)`,
longitude resolution `|lon[0] - lon[1]|`, the candidate boundary coordinates
`np.arange(left_ext, right_ext + lon_resolution, lon_resolution)`, and their
`searchsorted` indices; returns the pair `(lon_indices[0], lon_indices[-1])`.
The error branches model the Python exceptions: an `IndexError` when the axis has
fewer than two points (or the candidate list is empty), and the `ValueError` that
`np.arange` raises on a zero step. -/
def lon_window_span (lon : List ℚ) (center_lon : ℚ) (window_size : ℕ) :
    Except String (ℕ × ℕ) :=
  if lon.length < 2 then Except.error "IndexError"
  else
    let res := |lon.getD 0 0 - lon.getD 1 0|
    if res = 0 then Except.error "ValueError arange step"
    else
      let left_ext := center_lon - ((window_size / 2 : ℕ) : ℚ)
      let right_ext := center_lon + ((window_size / 2 : ℕ) : ℚ)
      match (arange left_ext (right_ext + res) res).map (searchsorted lon) with
      | [] => Except.error "IndexError"
      | i :: rest => Except.ok (i, (i :: rest).getLast (List.cons_ne_nil i rest))

/-- Models `numpy.hanning n` as a function of the sample index: `numpy` returns
`[1.0]` for `n = 1` and otherwise the curve `0.5 - 0.5 * cos(2 * pi * i / (n - 1))`
for `i = 0, ..., n - 1` (indices outside that range are never read by the caller). -/
noncomputable def hanning (n : ℕ) (i : ℕ) : ℝ :=
  if n = 1 then 1
  else 1 / 2 - 1 / 2 * Real.cos (2 * Real.pi * i / ((n - 1 : ℕ) : ℝ))

/-- The mask vector after line 32, `hann_filter[start : stop] = hanning window_size`:
zero outside the index span `[start, stop)` and the Hann curve inside it.  For
`window_size = 1` numpy broadcasts the single value `1.0` over the whole slice,
which coincides with `hanning 1 (i - start) = 1`. -/
noncomputable def hann_filter (window_size start stop : ℕ) (i : ℕ) : ℝ :=
  if start ≤ i ∧ i < stop then hanning window_size (i - start) else 0

/-- The description attribute built on lines 44-47: window size plus the center
longitude rendered with an `E` suffix for a non-negative center and with a `W`
suffix and the absolute value for a negative center. -/
def window_description (center_lon : ℚ) (window_size : ℕ) : String :=
  if 0 ≤ center_lon then
    "Hanning window of size " ++ toString window_size ++ " applied at " ++
      toString center_lon ++ "E"
  else
    "Hanning window of size " ++ toString window_size ++ " applied at " ++
      toString (abs center_lon) ++ "W"

/-- The function `apply_hann_window_lon` of the source.  The slice assignment on
line 32 is well-defined exactly when the matched span length equals the Hann curve
length (or the curve has length one and broadcasts); otherwise numpy raises a
broadcast `ValueError`, modelled by the error branch.  On success the result keeps
the input's name, dims and coordinates, multiplies the values elementwise by the
mask broadcast over time and lat, and carries the description attribute. -/
noncomputable def apply_hann_window_lon (da : DataArray) (center_lon : ℚ)
    (window_size : ℕ) : Except String DataArray :=
  match lon_window_span da.lon center_lon window_size with
  | Except.error e => Except.error e
  | Except.ok (i0, iN) =>
    let n := da.lon.length
    let start := min i0 n
    let stop := min (iN + 1) n
    if stop - start = window_size ∨ window_size = 1 then
      Except.ok { da with
        data := fun t y x => da.data t y x * hann_filter window_size start stop x,
        attrs := [("description", window_description center_lon window_size)] }
    else Except.error "ValueError broadcast"

/-- A uniformly spaced, strictly ascending longitude axis: `n` points starting at
`L` with spacing `d`.  The axes of the spec's scenarios are instances of this. -/
def grid (L d : ℚ) (n : ℕ) : List ℚ :=
  (List.range n).map (fun (k : ℕ) => L + (k : ℚ) * d)

/-! ### Basic facts about `grid`, `searchsorted` and `arange` -/

/-- The grid axis has the requested number of points. -/
theorem grid_length (L d : ℚ) (n : ℕ) : (grid L d n).length = n := by
  rw [grid, List.length_map, List.length_range]

/-- Peeling the first point off a grid axis. -/
theorem grid_succ (L d : ℚ) (n : ℕ) : grid L d (n + 1) = L :: grid (L + d) d n := by
  rw [grid, List.range_succ_eq_map, List.map_cons, List.map_map]
  congr 1
  · norm_num
  · rw [grid]
    refine List.map_congr_left fun a _ => ?_
    simp only [Function.comp_apply, Nat.succ_eq_add_one]
    push_cast
    ring

/-- Reading a grid point. -/
theorem grid_getD (L d : ℚ) {n i : ℕ} (h : i < n) :
    (grid L d n).getD i 0 = L + i * d := by
  rw [grid, List.getD_eq_getElem?_getD, List.getElem?_map, List.getElem?_range h]
  rfl

/-- `searchsorted` on a uniformly spaced ascending axis is the clamped analytic
insertion index `⌈(v - L) / d⌉`. -/
theorem searchsorted_grid (L : ℚ) {d : ℚ} (hd : 0 < d) (n : ℕ) (v : ℚ) :
    searchsorted (grid L d n) v = min n (Int.ceil ((v - L) / d)).toNat := by
  induction n generalizing L with
  | zero => simp [grid, searchsorted]
  | succ m ih =>
    rw [grid_succ, searchsorted, List.takeWhile_cons]
    by_cases hv : L < v
    · have h1 : 0 < Int.ceil ((v - L) / d) :=
        Int.lt_ceil.mpr (by push_cast; exact div_pos (sub_pos.2 hv) hd)
      have h2 : (v - (L + d)) / d = (v - L) / d - 1 := by
        field_simp
        ring
      have h3 := ih (L + d)
      rw [searchsorted] at h3
      rw [if_pos (decide_eq_true hv), List.length_cons, h3, h2, Int.ceil_sub_one]
      omega
    · have h0 : Int.ceil ((v - L) / d) ≤ 0 :=
        Int.ceil_le.mpr (by
          push_cast
          exact div_nonpos_of_nonpos_of_nonneg (sub_nonpos.2 (le_of_not_lt hv)) hd.le)
      rw [if_neg (by simpa using hv), List.length_nil]
      omega

/-- The last element of a mapped range. -/
theorem getLast_map_range {α : Type} (f : ℕ → α) (T : ℕ)
    (h : (List.range (T + 1)).map f ≠ []) :
    ((List.range (T + 1)).map f).getLast h = f T := by
  rw [List.getLast_eq_getElem]
  simp

/-- `arange` over a positive step, written as a mapped range. -/
theorem arange_eq_map {step : ℚ} (hstep : 0 < step) (start stop : ℚ) :
    arange start stop step =
      (List.range (Int.ceil ((stop - start) / step)).toNat).map
        (fun (k : ℕ) => start + (k : ℚ) * step) := by
  simp [arange, hstep]

/-- Transporting `getLast` along an equality of lists. -/
theorem getLast_eq_of_eq {α : Type} {l l' : List α} (h : l = l') (hne : l ≠ []) :
    l.getLast hne = l'.getLast (h ▸ hne) := by
  subst h
  rfl

/-- The head of a mapped range. -/
theorem head?_map_range {α : Type} (f : ℕ → α) (T : ℕ) :
    ((List.range (T + 1)).map f).head? = some (f 0) := by
  rw [List.range_succ_eq_map, List.map_cons, List.head?_cons]

/-- Characterization of the search stage on a uniformly spaced ascending axis
with at least two points: the first matched index is the clamped insertion index
of the left extension, and the last matched index sits `⌈2 * int(ws/2) / d⌉`
candidate steps further (both clamped to the axis length). -/
theorem lon_window_span_grid (L : ℚ) {d : ℚ} (hd : 0 < d) {n : ℕ} (hn : 2 ≤ n)
    (c : ℚ) (ws : ℕ) :
    lon_window_span (grid L d n) c ws =
      Except.ok
        (min n (Int.ceil ((c - ((ws / 2 : ℕ) : ℚ) - L) / d)).toNat,
         min n (Int.ceil ((c - ((ws / 2 : ℕ) : ℚ) - L) / d) +
                Int.ceil (2 * ((ws / 2 : ℕ) : ℚ) / d)).toNat) := by
  set m : ℚ := ((ws / 2 : ℕ) : ℚ) with hm
  set e : ℤ := Int.ceil ((c - m - L) / d) with he
  set E : ℤ := Int.ceil (2 * m / d) with hE
  have hm0 : 0 ≤ m := by rw [hm]; positivity
  have hE0 : 0 ≤ E := Int.ceil_nonneg (by positivity)
  have hg0 : (grid L d n).getD 0 0 = L := by
    rw [grid_getD L d (show 0 < n by omega)]
    norm_num
  have hg1 : (grid L d n).getD 1 0 = L + d := by
    rw [grid_getD L d (show 1 < n by omega)]
    norm_num
  have habs : |L - (L + d)| = d := by
    rw [show L - (L + d) = -d by ring, abs_neg, abs_of_pos hd]
  have hcount : Int.ceil (((c + m + d) - (c - m)) / d) = E + 1 := by
    rw [show ((c + m + d) - (c - m)) / d = 2 * m / d + 1 by field_simp; ring]
    rw [Int.ceil_add_one]
  have harange : arange (c - m) (c + m + d) d =
      (List.range (E.toNat + 1)).map (fun (k : ℕ) => (c - m) + (k : ℚ) * d) := by
    rw [arange_eq_map hd, hcount, show (E + 1).toNat = E.toNat + 1 by omega]
  have hmapped : (arange (c - m) (c + m + d) d).map (searchsorted (grid L d n)) =
      (List.range (E.toNat + 1)).map (fun (k : ℕ) => min n (e + (k : ℤ)).toNat) := by
    rw [harange, List.map_map]
    refine List.map_congr_left fun a _ => ?_
    simp only [Function.comp_apply]
    rw [searchsorted_grid L hd]
    rw [show ((c - m + (a : ℚ) * d) - L) / d = (c - m - L) / d + ((a : ℤ) : ℚ) by
      push_cast; field_simp; ring]
    rw [Int.ceil_add_int, ← he]
  rw [lon_window_span]
  rw [if_neg (by rw [grid_length]; omega)]
  simp only [hg0, hg1, habs]
  rw [if_neg hd.ne']
  rw [← hm]
  split
  · next heq =>
    rw [hmapped] at heq
    exact absurd (congrArg List.length heq) (by simp)
  · next i rest heq =>
    rw [hmapped] at heq
    have hhead : some (min n (e + ((0 : ℕ) : ℤ)).toNat) = some i := by
      rw [← head?_map_range (fun (k : ℕ) => min n (e + (k : ℤ)).toNat) E.toNat, heq,
        List.head?_cons]
    have hi : i = min n e.toNat := by
      have := Option.some.inj hhead
      omega
    have hlast : (i :: rest).getLast (List.cons_ne_nil i rest) =
        min n (e + (E.toNat : ℤ)).toNat := by
      rw [getLast_eq_of_eq heq.symm,
        getLast_map_range (fun (k : ℕ) => min n (e + (k : ℤ)).toNat) E.toNat]
    rw [hlast, hi, Int.toNat_of_nonneg hE0]

/-! ### Unfolding the windowing function -/

/-- When the search stage fails, the function propagates the error. -/
theorem apply_unfold_error {da : DataArray} {c : ℚ} {ws : ℕ} {e : String}
    (hspan : lon_window_span da.lon c ws = Except.error e) :
    apply_hann_window_lon da c ws = Except.error e := by
  rw [apply_hann_window_lon, hspan]

/-- When the search stage returns the index pair `(i0, iN)`, the function reduces to
the broadcast check on the clipped slice `[min i0 n, min (iN + 1) n)`. -/
theorem apply_unfold_ok {da : DataArray} {c : ℚ} {ws i0 iN : ℕ}
    (hspan : lon_window_span da.lon c ws = Except.ok (i0, iN)) :
    apply_hann_window_lon da c ws =
      if min (iN + 1) da.lon.length - min i0 da.lon.length = ws ∨ ws = 1 then
        Except.ok { da with
          data := fun t y x => da.data t y x *
            hann_filter ws (min i0 da.lon.length) (min (iN + 1) da.lon.length) x,
          attrs := [("description", window_description c ws)] }
      else Except.error "ValueError broadcast" := by
  rw [apply_hann_window_lon, hspan]

/-- Forward evaluation: a successful slice assignment yields the windowed array. -/
theorem apply_eq_ok {da : DataArray} {c : ℚ} {ws i0 iN : ℕ}
    (hspan : lon_window_span da.lon c ws = Except.ok (i0, iN))
    (hcond : min (iN + 1) da.lon.length - min i0 da.lon.length = ws ∨ ws = 1) :
    apply_hann_window_lon da c ws = Except.ok { da with
      data := fun t y x => da.data t y x *
        hann_filter ws (min i0 da.lon.length) (min (iN + 1) da.lon.length) x,
      attrs := [("description", window_description c ws)] } := by
  rw [apply_unfold_ok hspan, if_pos hcond]

/-- Inversion: any successful call factors through a successful search stage, a
passed broadcast check, and the windowed-record result. -/
theorem apply_ok_elim {da : DataArray} {c : ℚ} {ws : ℕ} {out : DataArray}
    (h : apply_hann_window_lon da c ws = Except.ok out) :
    ∃ i0 iN, lon_window_span da.lon c ws = Except.ok (i0, iN) ∧
      (min (iN + 1) da.lon.length - min i0 da.lon.length = ws ∨ ws = 1) ∧
      out = { da with
        data := fun t y x => da.data t y x *
          hann_filter ws (min i0 da.lon.length) (min (iN + 1) da.lon.length) x,
        attrs := [("description", window_description c ws)] } := by
  cases hspan : lon_window_span da.lon c ws with
  | error e =>
    rw [apply_unfold_error hspan] at h
    exact absurd h (by simp)
  | ok p =>
    obtain ⟨i0, iN⟩ := p
    rw [apply_unfold_ok hspan] at h
    by_cases hcond : min (iN + 1) da.lon.length - min i0 da.lon.length = ws ∨ ws = 1
    · rw [if_pos hcond] at h
      exact ⟨i0, iN, rfl, hcond, (Except.ok.inj h).symm⟩
    · rw [if_neg hcond] at h
      exact absurd h (by simp)

/-! ### Values of the Hann curve -/

/-- The Hann curve starts at exactly zero (for any length other than one). -/
theorem hanning_first {n : ℕ} (h : n ≠ 1) : hanning n 0 = 0 := by
  rw [hanning, if_neg h]
  simp

/-- The Hann curve ends at exactly zero for lengths at least two. -/
theorem hanning_last {n : ℕ} (h : 2 ≤ n) : hanning n (n - 1) = 0 := by
  rw [hanning, if_neg (by omega)]
  have hne : ((n - 1 : ℕ) : ℝ) ≠ 0 := Nat.cast_ne_zero.mpr (by omega)
  rw [mul_div_assoc, div_self hne, mul_one, Real.cos_two_pi]
  norm_num

/-- The Hann curve lies in `[0, 1]`. -/
theorem hanning_bound (n i : ℕ) : 0 ≤ hanning n i ∧ hanning n i ≤ 1 := by
  rw [hanning]
  split
  · norm_num
  · have h1 := Real.cos_le_one (2 * Real.pi * i / ((n - 1 : ℕ) : ℝ))
    have h2 := Real.neg_one_le_cos (2 * Real.pi * i / ((n - 1 : ℕ) : ℝ))
    constructor <;> nlinarith

/-- Second sample of the 5-point Hann curve: exactly one half. -/
theorem hanning_five_1 : hanning 5 1 = 1 / 2 := by
  rw [hanning, if_neg (by norm_num)]
  rw [show 2 * Real.pi * ((1 : ℕ) : ℝ) / (((5 - 1 : ℕ)) : ℝ) = Real.pi / 2 by
    norm_num
    ring]
  rw [Real.cos_pi_div_two]
  norm_num

/-- Center sample of the 5-point Hann curve: exactly one. -/
theorem hanning_five_2 : hanning 5 2 = 1 := by
  rw [hanning, if_neg (by norm_num)]
  rw [show 2 * Real.pi * ((2 : ℕ) : ℝ) / (((5 - 1 : ℕ)) : ℝ) = Real.pi by
    norm_num
    ring]
  rw [Real.cos_pi]
  norm_num

/-- Fourth sample of the 5-point Hann curve: exactly one half. -/
theorem hanning_five_3 : hanning 5 3 = 1 / 2 := by
  rw [hanning, if_neg (by norm_num)]
  rw [show 2 * Real.pi * ((3 : ℕ) : ℝ) / (((5 - 1 : ℕ)) : ℝ) = Real.pi + Real.pi / 2 by
    norm_num
    ring]
  rw [Real.cos_add, Real.cos_pi, Real.sin_pi, Real.cos_pi_div_two]
  norm_num

/-! ### Record projections and fixtures -/

/-- Projecting the longitude axis out of the windowed record. -/
theorem update_lon (da : DataArray) (f : ℕ → ℕ → ℕ → ℝ) (a : List (String × String)) :
    ({ da with data := f, attrs := a } : DataArray).lon = da.lon := rfl

/-- Projecting the values out of the windowed record. -/
theorem update_data (da : DataArray) (f : ℕ → ℕ → ℕ → ℝ) (a : List (String × String)) :
    ({ da with data := f, attrs := a } : DataArray).data = f := rfl

/-- Projecting the attributes out of the windowed record. -/
theorem update_attrs (da : DataArray) (f : ℕ → ℕ → ℕ → ℝ) (a : List (String × String)) :
    ({ da with data := f, attrs := a } : DataArray).attrs = a := rfl

/-- A sample input field over a given longitude axis: single time and lat points,
all cell values one. -/
noncomputable def mkDA (lon : List ℚ) : DataArray where
  name := "field"
  dims := ["time", "lat", "lon"]
  time_coord := [0]
  lat_coord := [0]
  lon := lon
  data := fun _ _ _ => 1
  attrs := []

/-- The longitude axis of a sample field. -/
theorem mkDA_lon (l : List ℚ) : (mkDA l).lon = l := rfl

/-- Evaluating a ceiling whose argument is an integer-valued rational. -/
theorem ceil_ratCast_int (z : ℤ) (q : ℚ) (h : q = (z : ℚ)) : Int.ceil q = z := by
  rw [h, Int.ceil_intCast]

/-- Mask value inside the assigned span. -/
theorem hann_filter_in {ws s t : ℕ} (i : ℕ) (h : s ≤ i ∧ i < t) :
    hann_filter ws s t i = hanning ws (i - s) := by
  rw [hann_filter, if_pos h]

/-- Mask value outside the assigned span. -/
theorem hann_filter_out {ws s t : ℕ} (i : ℕ) (h : ¬(s ≤ i ∧ i < t)) :
    hann_filter ws s t i = 0 := by
  rw [hann_filter, if_neg h]

/-- The search stage on a unit-spacing grid, with the ceilings simplified. -/
theorem lon_window_span_grid_one (L : ℚ) {n : ℕ} (hn : 2 ≤ n) (c : ℚ) (ws : ℕ) :
    lon_window_span (grid L 1 n) c ws =
      Except.ok
        (min n (Int.ceil (c - ((ws / 2 : ℕ) : ℚ) - L)).toNat,
         min n (Int.ceil (c - ((ws / 2 : ℕ) : ℚ) - L) +
                ((2 * (ws / 2) : ℕ) : ℤ)).toNat) := by
  rw [lon_window_span_grid L one_pos hn c ws]
  simp only [div_one]
  rw [show (2 : ℚ) * ((ws / 2 : ℕ) : ℚ) = (((2 * (ws / 2) : ℕ)) : ℚ) by push_cast; ring,
    Int.ceil_natCast]

/-- Search stage for the axis `[0, 1, ..., 4]`, `center_lon = 2`, `window_size = 3`. -/
theorem span5_c2_w3 : lon_window_span (grid 0 1 5) 2 3 = Except.ok (1, 3) := by
  rw [lon_window_span_grid_one 0 (by norm_num) 2 3,
    ceil_ratCast_int 1 _ (by norm_num)]
  simp only [Except.ok.injEq, Prod.mk.injEq]
  omega

/-- Search stage for the axis `[0, 1, ..., 4]`, `center_lon = 2`, `window_size = 1`. -/
theorem span5_c2_w1 : lon_window_span (grid 0 1 5) 2 1 = Except.ok (2, 2) := by
  rw [lon_window_span_grid_one 0 (by norm_num) 2 1,
    ceil_ratCast_int 2 _ (by norm_num)]
  simp only [Except.ok.injEq, Prod.mk.injEq]
  omega

/-- Search stage for the axis `[0, 1, ..., 359]`, `center_lon = 10`, `window_size = 5`. -/
theorem span360_c10_w5 : lon_window_span (grid 0 1 360) 10 5 = Except.ok (8, 12) := by
  rw [lon_window_span_grid_one 0 (by norm_num) 10 5,
    ceil_ratCast_int 8 _ (by norm_num)]
  simp only [Except.ok.injEq, Prod.mk.injEq]
  omega

/-- Search stage for the axis `[0, 1, ..., 359]`, `center_lon = 30`, `window_size = 5`. -/
theorem span360_c30_w5 : lon_window_span (grid 0 1 360) 30 5 = Except.ok (28, 32) := by
  rw [lon_window_span_grid_one 0 (by norm_num) 30 5,
    ceil_ratCast_int 28 _ (by norm_num)]
  simp only [Except.ok.injEq, Prod.mk.injEq]
  omega

/-- Search stage for the out-of-range center `center_lon = -10` on `[0, ..., 359]`:
every candidate boundary coordinate is below the axis, so all matched indices
collapse to zero. -/
theorem span360_neg10_w5 : lon_window_span (grid 0 1 360) (-10) 5 = Except.ok (0, 0) := by
  rw [lon_window_span_grid_one 0 (by norm_num) (-10) 5,
    ceil_ratCast_int (-12) _ (by norm_num)]
  simp only [Except.ok.injEq, Prod.mk.injEq]
  omega

/-- Search stage for the axis `[-100, -99, ..., 99]`, `center_lon = -45`,
`window_size = 5`. -/
theorem spanNeg_c45_w5 :
    lon_window_span (grid (-100) 1 200) (-45) 5 = Except.ok (53, 57) := by
  rw [lon_window_span_grid_one (-100) (by norm_num) (-45) 5,
    ceil_ratCast_int 53 _ (by norm_num)]
  simp only [Except.ok.injEq, Prod.mk.injEq]
  omega

/-- Search stage on the spacing-2 axis `[0, 2, ..., 38]` with `center_lon = 20` and
`window_size = 4`: the matched span is `[9, 11]`, three indices, not five. -/
theorem spanD2_c20_w4 : lon_window_span (grid 0 2 20) 20 4 = Except.ok (9, 11) := by
  rw [lon_window_span_grid 0 (by norm_num) (by norm_num) 20 4,
    ceil_ratCast_int 9 _ (by norm_num), ceil_ratCast_int 2 _ (by norm_num)]
  simp only [Except.ok.injEq, Prod.mk.injEq]
  omega

/-- The windowed output record: the input with its values multiplied by the mask
assigned on the index span `[s, t)` and the description attribute attached. -/
noncomputable def windowed (da : DataArray) (c : ℚ) (ws s t : ℕ) : DataArray :=
  { da with
    data := fun ti y x => da.data ti y x * hann_filter ws s t x,
    attrs := [("description", window_description c ws)] }

/-- Success evaluation with the clipping already computed: when the matched span
lies inside the axis and its length passes the broadcast check, the call returns
the windowed record. -/
theorem apply_ok_explicit (da : DataArray) (c : ℚ) (ws i0 iN : ℕ)
    (hspan : lon_window_span da.lon c ws = Except.ok (i0, iN))
    (hstart : min i0 da.lon.length = i0)
    (hstop : min (iN + 1) da.lon.length = iN + 1)
    (hcond : iN + 1 - i0 = ws ∨ ws = 1) :
    apply_hann_window_lon da c ws = Except.ok (windowed da c ws i0 (iN + 1)) := by
  have h := apply_eq_ok hspan (by rw [hstart, hstop]; exact hcond)
  rw [h]
  simp only [windowed, hstart, hstop]

/-- Evaluating the call on `[0, ..., 4]` with `center_lon = 2`, `window_size = 3`. -/
theorem happ5_w3 :
    apply_hann_window_lon (mkDA (grid 0 1 5)) 2 3 =
      Except.ok (windowed (mkDA (grid 0 1 5)) 2 3 1 4) :=
  apply_ok_explicit (mkDA (grid 0 1 5)) 2 3 1 3 span5_c2_w3
    (by simp only [mkDA_lon, grid_length]; omega)
    (by simp only [mkDA_lon, grid_length]; omega)
    (by omega)

/-- Evaluating the second application on the already-windowed field. -/
theorem happ5_w3_twice :
    apply_hann_window_lon (windowed (mkDA (grid 0 1 5)) 2 3 1 4) 2 3 =
      Except.ok (windowed (windowed (mkDA (grid 0 1 5)) 2 3 1 4) 2 3 1 4) :=
  apply_ok_explicit (windowed (mkDA (grid 0 1 5)) 2 3 1 4) 2 3 1 3 span5_c2_w3
    (by simp only [windowed, update_lon, mkDA_lon, grid_length]; omega)
    (by simp only [windowed, update_lon, mkDA_lon, grid_length]; omega)
    (by omega)

/-- Evaluating the call on `[0, ..., 4]` with `center_lon = 2`, `window_size = 1`:
the single-point Hann curve broadcasts and the call succeeds. -/
theorem happ5_w1 :
    apply_hann_window_lon (mkDA (grid 0 1 5)) 2 1 =
      Except.ok (windowed (mkDA (grid 0 1 5)) 2 1 2 3) :=
  apply_ok_explicit (mkDA (grid 0 1 5)) 2 1 2 2 span5_c2_w1
    (by simp only [mkDA_lon, grid_length]; omega)
    (by simp only [mkDA_lon, grid_length]; omega)
    (by omega)

/-- Evaluating the spec's scenario: axis `[0, ..., 359]`, center `10`, size `5`. -/
theorem happ360_w5 :
    apply_hann_window_lon (mkDA (grid 0 1 360)) 10 5 =
      Except.ok (windowed (mkDA (grid 0 1 360)) 10 5 8 13) :=
  apply_ok_explicit (mkDA (grid 0 1 360)) 10 5 8 12 span360_c10_w5
    (by simp only [mkDA_lon, grid_length]; omega)
    (by simp only [mkDA_lon, grid_length]; omega)
    (by omega)

/-- Evaluating the call on `[0, ..., 359]` with center `30`, size `5`. -/
theorem happ360_c30 :
    apply_hann_window_lon (mkDA (grid 0 1 360)) 30 5 =
      Except.ok (windowed (mkDA (grid 0 1 360)) 30 5 28 33) :=
  apply_ok_explicit (mkDA (grid 0 1 360)) 30 5 28 32 span360_c30_w5
    (by simp only [mkDA_lon, grid_length]; omega)
    (by simp only [mkDA_lon, grid_length]; omega)
    (by omega)

/-- Evaluating the call on `[-100, ..., 99]` with center `-45`, size `5`. -/
theorem happW :
    apply_hann_window_lon (mkDA (grid (-100) 1 200)) (-45) 5 =
      Except.ok (windowed (mkDA (grid (-100) 1 200)) (-45) 5 53 58) :=
  apply_ok_explicit (mkDA (grid (-100) 1 200)) (-45) 5 53 57 spanNeg_c45_w5
    (by simp only [mkDA_lon, grid_length]; omega)
    (by simp only [mkDA_lon, grid_length]; omega)
    (by omega)

/-- The out-of-range center `-10` on `[0, ..., 359]`: the collapsed one-index span
fails the broadcast check, so the call raises instead of returning an array. -/
theorem happ360_neg10_error :
    apply_hann_window_lon (mkDA (grid 0 1 360)) (-10) 5 =
      Except.error "ValueError broadcast" := by
  rw [apply_unfold_ok (show lon_window_span (mkDA (grid 0 1 360)).lon (-10) 5 =
      Except.ok (0, 0) from span360_neg10_w5)]
  rw [if_neg (by simp only [mkDA_lon, grid_length]; omega)]

/-! ### Claims -/

/-- C1: for every input on which `apply_hann_window_lon` returns an array, the
returned array has exactly the same shape, dimension names, and coordinate labels
(time, lat and lon coordinate vectors) as the input array. -/
theorem C1_output_matches_input_geometry (da : DataArray) (c : ℚ) (ws : ℕ)
    (out : DataArray) (h : apply_hann_window_lon da c ws = Except.ok out) :
    out.shape = da.shape ∧ out.dims = da.dims ∧ out.time_coord = da.time_coord ∧
      out.lat_coord = da.lat_coord ∧ out.lon = da.lon := by
  obtain ⟨i0, iN, -, -, hout⟩ := apply_ok_elim h
  subst hout
  exact ⟨rfl, rfl, rfl, rfl, rfl⟩

/-- Witness for C1 at the axis `[0, ..., 4]`, center `2`, window size `3`. -/
theorem C1_output_matches_input_geometry_witness :
    apply_hann_window_lon (mkDA (grid 0 1 5)) 2 3 =
      Except.ok (windowed (mkDA (grid 0 1 5)) 2 3 1 4) ∧
    (windowed (mkDA (grid 0 1 5)) 2 3 1 4).shape = (mkDA (grid 0 1 5)).shape ∧
    (windowed (mkDA (grid 0 1 5)) 2 3 1 4).dims = (mkDA (grid 0 1 5)).dims ∧
    (windowed (mkDA (grid 0 1 5)) 2 3 1 4).lon = (mkDA (grid 0 1 5)).lon :=
  ⟨happ5_w3, (C1_output_matches_input_geometry _ _ _ _ happ5_w3).1,
    (C1_output_matches_input_geometry _ _ _ _ happ5_w3).2.1,
    (C1_output_matches_input_geometry _ _ _ _ happ5_w3).2.2.2.2⟩

/-- C2: on the axis `[0, 1, ..., 359]` with center `10` and window size `5`, the
output is the input multiplied elementwise by the mask broadcast over time and lat;
the mask vanishes outside indices `8..12` and holds the 5-point Hann curve
`0, 1/2, 1, 1/2, 0` at indices `8, 9, 10, 11, 12`. -/
theorem C2_scenario_mask_360 (da out : DataArray)
    (hlon : da.lon = grid 0 1 360)
    (h : apply_hann_window_lon da 10 5 = Except.ok out) :
    (∀ t y x, out.data t y x = da.data t y x * hann_filter 5 8 13 x) ∧
    hann_filter 5 8 13 8 = 0 ∧ hann_filter 5 8 13 9 = 1 / 2 ∧
    hann_filter 5 8 13 10 = 1 ∧ hann_filter 5 8 13 11 = 1 / 2 ∧
    hann_filter 5 8 13 12 = 0 ∧
    (∀ x, ¬(8 ≤ x ∧ x < 13) → hann_filter 5 8 13 x = 0) := by
  obtain ⟨i0, iN, hspan, -, hout⟩ := apply_ok_elim h
  rw [hlon, span360_c10_w5] at hspan
  obtain ⟨rfl, rfl⟩ : 8 = i0 ∧ 12 = iN := by simpa using hspan
  simp only [hlon, grid_length] at hout
  norm_num at hout
  subst hout
  refine ⟨fun t y x => rfl, ?_, ?_, ?_, ?_, ?_, fun x hx => hann_filter_out x hx⟩
  · rw [hann_filter_in 8 (by omega)]
    exact hanning_first (by norm_num)
  · rw [hann_filter_in 9 (by omega)]
    exact hanning_five_1
  · rw [hann_filter_in 10 (by omega)]
    exact hanning_five_2
  · rw [hann_filter_in 11 (by omega)]
    exact hanning_five_3
  · rw [hann_filter_in 12 (by omega)]
    exact hanning_last (by norm_num)

/-- Witness for C2 at the concrete all-ones field on `[0, ..., 359]`. -/
theorem C2_scenario_mask_360_witness :
    apply_hann_window_lon (mkDA (grid 0 1 360)) 10 5 =
      Except.ok (windowed (mkDA (grid 0 1 360)) 10 5 8 13) ∧
    hann_filter 5 8 13 10 = 1 :=
  ⟨happ360_w5, (C2_scenario_mask_360 _ _ rfl happ360_w5).2.2.2.1⟩

/-- C3 counterexample: with `window_size = 1` (a positive integer) on the axis
`[0, ..., 4]` centered at `2`, the call returns normally, the first and last
matched index are both `2`, and the mask value there is `1`, not `0`:
`numpy.hanning 1` is `[1.0]`, so the endpoint-zero property fails. -/
theorem C3_endpoint_counterexample :
    lon_window_span (grid 0 1 5) 2 1 = Except.ok (2, 2) ∧
    apply_hann_window_lon (mkDA (grid 0 1 5)) 2 1 =
      Except.ok (windowed (mkDA (grid 0 1 5)) 2 1 2 3) ∧
    hann_filter 1 2 3 2 = 1 ∧ (1 : ℝ) ≠ 0 := by
  refine ⟨span5_c2_w1, happ5_w1, ?_, one_ne_zero⟩
  rw [hann_filter_in 2 (by omega)]
  rw [hanning, if_pos rfl]

/-- C3 amended: for every `window_size ≥ 2`, whenever the call returns normally the
mask used for the output is exactly `0` at the first matched longitude index and at
the last matched longitude index. -/
theorem C3_mask_zero_at_span_ends (da out : DataArray) (c : ℚ) (ws i0 iN : ℕ)
    (hws : 2 ≤ ws)
    (hspan : lon_window_span da.lon c ws = Except.ok (i0, iN))
    (h : apply_hann_window_lon da c ws = Except.ok out) :
    (∀ t y x, out.data t y x = da.data t y x *
        hann_filter ws (min i0 da.lon.length) (min (iN + 1) da.lon.length) x) ∧
    hann_filter ws (min i0 da.lon.length) (min (iN + 1) da.lon.length) i0 = 0 ∧
    hann_filter ws (min i0 da.lon.length) (min (iN + 1) da.lon.length) iN = 0 := by
  obtain ⟨j0, jN, hspan2, hcond, hout⟩ := apply_ok_elim h
  rw [hspan] at hspan2
  obtain ⟨rfl, rfl⟩ : i0 = j0 ∧ iN = jN := by simpa using hspan2
  have hlen : min (iN + 1) da.lon.length - min i0 da.lon.length = ws := by
    rcases hcond with hc | hc
    · exact hc
    · omega
  have hi0 : min i0 da.lon.length = i0 := by omega
  have hstart_lt : i0 < min (iN + 1) da.lon.length := by omega
  refine ⟨fun t y x => by rw [hout], ?_, ?_⟩
  · rw [hann_filter_in i0 (by omega)]
    rw [show i0 - min i0 da.lon.length = 0 from by omega]
    exact hanning_first (by omega)
  · by_cases hstop : iN + 1 ≤ da.lon.length
    · rw [hann_filter_in iN (by omega)]
      rw [show iN - min i0 da.lon.length = ws - 1 from by omega]
      exact hanning_last hws
    · rw [hann_filter_out iN (by omega)]

/-- Witness for the amended C3 at the axis `[0, ..., 4]`, center `2`, size `3`. -/
theorem C3_mask_zero_at_span_ends_witness :
    hann_filter 3 (min 1 (mkDA (grid 0 1 5)).lon.length)
      (min (3 + 1) (mkDA (grid 0 1 5)).lon.length) 1 = 0 ∧
    hann_filter 3 (min 1 (mkDA (grid 0 1 5)).lon.length)
      (min (3 + 1) (mkDA (grid 0 1 5)).lon.length) 3 = 0 :=
  ⟨(C3_mask_zero_at_span_ends _ _ 2 3 1 3 (by omega) span5_c2_w3 happ5_w3).2.1,
   (C3_mask_zero_at_span_ends _ _ 2 3 1 3 (by omega) span5_c2_w3 happ5_w3).2.2⟩

/-- String concatenation acts as concatenation of the underlying character lists. -/
theorem string_data_append (s t : String) : (s ++ t).data = s.data ++ t.data := rfl

/-- C4: every successful call attaches a description attribute that contains the
window size, and contains the center longitude suffixed with `E` when the center is
non-negative and its absolute value suffixed with `W` when the center is negative. -/
theorem C4_description_attribute (da out : DataArray) (c : ℚ) (ws : ℕ)
    (h : apply_hann_window_lon da c ws = Except.ok out) :
    out.attrs = [("description", window_description c ws)] ∧
    List.IsInfix (toString ws).data (window_description c ws).data ∧
    (0 ≤ c → List.IsInfix (toString c ++ "E").data (window_description c ws).data) ∧
    (c < 0 →
      List.IsInfix (toString (abs c) ++ "W").data (window_description c ws).data) := by
  obtain ⟨i0, iN, -, -, hout⟩ := apply_ok_elim h
  refine ⟨by rw [hout], ?_, ?_, ?_⟩
  · rw [window_description]
    split
    · exact ⟨"Hanning window of size ".data,
        (" applied at " ++ toString c ++ "E").data, by
          simp [string_data_append, List.append_assoc]⟩
    · exact ⟨"Hanning window of size ".data,
        (" applied at " ++ toString (abs c) ++ "W").data, by
          simp [string_data_append, List.append_assoc]⟩
  · intro hc
    rw [window_description, if_pos hc]
    exact ⟨("Hanning window of size " ++ toString ws ++ " applied at ").data, [], by
      simp [string_data_append, List.append_assoc]⟩
  · intro hc
    rw [window_description, if_neg (not_le.mpr hc)]
    exact ⟨("Hanning window of size " ++ toString ws ++ " applied at ").data, [], by
      simp [string_data_append, List.append_assoc]⟩

/-- Witness for C4: center `30` yields a description containing `30E`, and center
`-45` yields one containing `45W`. -/
theorem C4_description_attribute_witness :
    apply_hann_window_lon (mkDA (grid 0 1 360)) 30 5 =
      Except.ok (windowed (mkDA (grid 0 1 360)) 30 5 28 33) ∧
    List.IsInfix "30E".data (window_description 30 5).data ∧
    apply_hann_window_lon (mkDA (grid (-100) 1 200)) (-45) 5 =
      Except.ok (windowed (mkDA (grid (-100) 1 200)) (-45) 5 53 58) ∧
    List.IsInfix "45W".data (window_description (-45) 5).data := by
  have h1 := (C4_description_attribute _ _ 30 5 happ360_c30).2.2.1 (by norm_num)
  have h2 := (C4_description_attribute _ _ (-45) 5 happW).2.2.2 (by norm_num)
  rw [show |(-45 : ℚ)| = 45 from by norm_num] at h2
  exact ⟨happ360_c30, h1, happW, h2⟩

/-- C6: applying the same window twice multiplies the input by the square of the
mask: there is one mask such that the once-windowed values are the input times the
mask, the twice-windowed values are the once-windowed values times the same mask,
and hence the twice-windowed values are the input times the mask squared. -/
theorem C6_double_window_squares_mask (da o1 o2 : DataArray) (c : ℚ) (ws : ℕ)
    (h1 : apply_hann_window_lon da c ws = Except.ok o1)
    (h2 : apply_hann_window_lon o1 c ws = Except.ok o2) :
    ∃ mask : ℕ → ℝ,
      (∀ t y x, o1.data t y x = da.data t y x * mask x) ∧
      (∀ t y x, o2.data t y x = o1.data t y x * mask x) ∧
      (∀ t y x, o2.data t y x = da.data t y x * (mask x * mask x)) := by
  obtain ⟨i0, iN, hspan1, hcond1, ho1⟩ := apply_ok_elim h1
  obtain ⟨j0, jN, hspan2, hcond2, ho2⟩ := apply_ok_elim h2
  have hlon : o1.lon = da.lon := by rw [ho1]
  rw [hlon, hspan1] at hspan2
  obtain ⟨rfl, rfl⟩ : i0 = j0 ∧ iN = jN := by simpa using hspan2
  simp only [hlon] at ho2
  have e1 : ∀ t y x, o1.data t y x = da.data t y x *
      hann_filter ws (min i0 da.lon.length) (min (iN + 1) da.lon.length) x :=
    fun t y x => by rw [ho1]
  have e2 : ∀ t y x, o2.data t y x = o1.data t y x *
      hann_filter ws (min i0 da.lon.length) (min (iN + 1) da.lon.length) x :=
    fun t y x => by rw [ho2]
  refine ⟨hann_filter ws (min i0 da.lon.length) (min (iN + 1) da.lon.length),
    e1, e2, fun t y x => ?_⟩
  rw [e2, e1, mul_assoc]

/-- Witness for C6: the double application on `[0, ..., 4]`, center `2`, size `3`. -/
theorem C6_double_window_squares_mask_witness :
    apply_hann_window_lon (windowed (mkDA (grid 0 1 5)) 2 3 1 4) 2 3 =
      Except.ok (windowed (windowed (mkDA (grid 0 1 5)) 2 3 1 4) 2 3 1 4) ∧
    ∃ mask : ℕ → ℝ, ∀ t y x,
      (windowed (windowed (mkDA (grid 0 1 5)) 2 3 1 4) 2 3 1 4).data t y x =
        (mkDA (grid 0 1 5)).data t y x * (mask x * mask x) :=
  ⟨happ5_w3_twice, by
    obtain ⟨mask, -, -, h3⟩ :=
      C6_double_window_squares_mask _ _ _ 2 3 happ5_w3 happ5_w3_twice
    exact ⟨mask, h3⟩⟩

/-- C7: for every positive window size, every entry of the mask vector lies in
`[0, 1]`: zero outside the assigned span and a Hann-curve value inside it. -/
theorem C7_mask_bounded (ws s t i : ℕ) (hws : 0 < ws) :
    0 ≤ hann_filter ws s t i ∧ hann_filter ws s t i ≤ 1 := by
  rw [hann_filter]
  split
  · exact hanning_bound ws (i - s)
  · norm_num

/-- Witness for C7 at the scenario mask. -/
theorem C7_mask_bounded_witness :
    0 ≤ hann_filter 5 8 13 10 ∧ hann_filter 5 8 13 10 ≤ 1 :=
  C7_mask_bounded 5 8 13 10 (by omega)

/-- C8 counterexample: for center `-10` with window size `5` on the axis
`[0, ..., 359]`, the reference implementation does not return a result: the
collapsed matched span fails the slice-assignment broadcast and the call errors. -/
theorem C8_out_of_range_counterexample :
    (apply_hann_window_lon (mkDA (grid 0 1 360)) (-10) 5).toOption = none := by
  rw [happ360_neg10_error]
  rfl

/-- C8 amended: the search stage itself performs no bounds validation — for center
`-10` on `[0, ..., 359]` it succeeds with the collapsed span `(0, 0)` — and the
failure only surfaces as a broadcast `ValueError` when the 5-point Hann curve is
assigned into the one-index span, so no result is returned. -/
theorem C8_out_of_range_broadcast_error :
    lon_window_span (grid 0 1 360) (-10) 5 = Except.ok (0, 0) ∧
    apply_hann_window_lon (mkDA (grid 0 1 360)) (-10) 5 =
      Except.error "ValueError broadcast" :=
  ⟨span360_neg10_w5, happ360_neg10_error⟩

/-- C9: the function is deterministic — equal input arrays, centers and window
sizes produce equal results (and the embedding is a pure function: the input
record is never modified, and no effect other than producing the result exists). -/
theorem C9_deterministic (da da' : DataArray) (c c' : ℚ) (ws ws' : ℕ)
    (hda : da = da') (hc : c = c') (hws : ws = ws') :
    apply_hann_window_lon da c ws = apply_hann_window_lon da' c' ws' := by
  rw [hda, hc, hws]

/-- Witness for C9 at a concrete call. -/
theorem C9_deterministic_witness :
    apply_hann_window_lon (mkDA (grid 0 1 5)) 2 3 =
      apply_hann_window_lon (mkDA (grid 0 1 5)) 2 3 :=
  C9_deterministic (mkDA (grid 0 1 5)) (mkDA (grid 0 1 5)) 2 2 3 3 rfl rfl rfl

/-- C10 counterexample: on the strictly ascending, exactly uniformly spaced axis
`[0, 2, 4, ..., 38]` (spacing `2`), whose range contains the window of the even
size `ws = 4` centered at `20`, the candidate boundary sequence stepped by the
sample spacing has `3` elements, not `ws + 1 = 5`, and the matched index span
`[9, 11]` has length `3`, not `ws + 1`. -/
theorem C10_even_window_counterexample :
    (arange (20 - ((4 / 2 : ℕ) : ℚ)) (20 + ((4 / 2 : ℕ) : ℚ) + 2) 2).length = 3 ∧
    (3 : ℕ) ≠ 4 + 1 ∧
    lon_window_span (grid 0 2 20) 20 4 = Except.ok (9, 11) ∧
    11 + 1 - 9 ≠ 4 + 1 := by
  refine ⟨?_, by omega, spanD2_c20_w4, by omega⟩
  rw [arange_eq_map (by norm_num : (0 : ℚ) < 2), List.length_map, List.length_range,
    ceil_ratCast_int 3 _ (by norm_num)]
  rfl

/-- C10 amended: on a strictly ascending axis with uniform spacing `1` whose range
contains the window, an even `window_size ≥ 2` makes the candidate boundary
sequence contain `window_size + 1` coordinates, the matched index span has length
`window_size + 1`, and the Hann-curve assignment fails with the broadcast shape
mismatch — on such axes the call completes normally only for odd sizes. -/
theorem C10_even_window_broadcast_failure (L c : ℚ) (n ws : ℕ) (da : DataArray)
    (hlon : da.lon = grid L 1 n) (hn : 2 ≤ n) (hws : 2 ≤ ws) (heven : ws % 2 = 0)
    (hleft : L ≤ c - ((ws / 2 : ℕ) : ℚ))
    (hright : c + ((ws / 2 : ℕ) : ℚ) ≤ L + (n : ℚ) - 1) :
    (arange (c - ((ws / 2 : ℕ) : ℚ)) (c + ((ws / 2 : ℕ) : ℚ) + 1) 1).length = ws + 1 ∧
    lon_window_span da.lon c ws =
      Except.ok ((Int.ceil (c - ((ws / 2 : ℕ) : ℚ) - L)).toNat,
                 (Int.ceil (c - ((ws / 2 : ℕ) : ℚ) - L)).toNat + ws) ∧
    apply_hann_window_lon da c ws = Except.error "ValueError broadcast" := by
  have h2m : 2 * (ws / 2) = ws := by omega
  have hcast : ((ws : ℚ)) = 2 * ((ws / 2 : ℕ) : ℚ) := by
    rw [show (2 : ℚ) * ((ws / 2 : ℕ) : ℚ) = (((2 * (ws / 2) : ℕ)) : ℚ) by push_cast; ring,
      h2m]
  have he0 : 0 ≤ Int.ceil (c - ((ws / 2 : ℕ) : ℚ) - L) := Int.ceil_nonneg (by linarith)
  have heub : Int.ceil (c - ((ws / 2 : ℕ) : ℚ) - L) ≤ (n : ℤ) - ws - 1 := by
    refine Int.ceil_le.mpr ?_
    push_cast
    linarith [hcast]
  have hcount :
      (arange (c - ((ws / 2 : ℕ) : ℚ)) (c + ((ws / 2 : ℕ) : ℚ) + 1) 1).length =
        ws + 1 := by
    rw [arange_eq_map one_pos, List.length_map, List.length_range]
    rw [show (c + ((ws / 2 : ℕ) : ℚ) + 1 - (c - ((ws / 2 : ℕ) : ℚ))) / 1 =
        (((2 * (ws / 2) + 1 : ℕ)) : ℚ) by push_cast; ring]
    rw [Int.ceil_natCast]
    omega
  have hspan : lon_window_span da.lon c ws =
      Except.ok ((Int.ceil (c - ((ws / 2 : ℕ) : ℚ) - L)).toNat,
                 (Int.ceil (c - ((ws / 2 : ℕ) : ℚ) - L)).toNat + ws) := by
    rw [hlon, lon_window_span_grid_one L hn c ws]
    simp only [Except.ok.injEq, Prod.mk.injEq]
    omega
  refine ⟨hcount, hspan, ?_⟩
  rw [apply_unfold_ok hspan]
  rw [if_neg (by rw [hlon, grid_length]; omega)]

/-- Witness for the amended C10: the axis `[0, ..., 19]`, center `10`, even window
size `4`: the call fails with the broadcast error. -/
theorem C10_even_window_broadcast_failure_witness :
    apply_hann_window_lon (mkDA (grid 0 1 20)) 10 4 =
      Except.error "ValueError broadcast" :=
  (C10_even_window_broadcast_failure 0 10 20 4 (mkDA (grid 0 1 20)) rfl (by omega)
    (by omega) (by omega) (by norm_num) (by norm_num)).2.2
